import Mathlib

/-!
Shallow embedding of the OTP login flow of `tutoriais-nextest`.

Two source files are modelled:

* `src/unnamed/part_000` — the Express + Drizzle serverless handler.  Its
  database tables (`users`, `verification_codes`) are modelled as Lean lists
  of rows; Drizzle query combinators (`select ... where and(eq.., eq.., eq..,
  gt..)`, `insert`, `update ... set used=true where id=X`) become pure list
  operations.  Timestamps are naturals counting milliseconds, as produced by
  `Date.now()`.  `Math.random()`-driven choices are passed in as an explicit
  draw.  A mail delivery attempt is passed in as a boolean (`true` = the
  `await sendVerificationCode` call returned, `false` = it threw).
* `src/api/index.js` — the standalone mock Vercel handler, which consults no
  store at all.

HTTP responses are modelled as a record of status plus the JSON fields the
handlers actually emit.
-/

/-- A row of the `users` table (`part_000`, lines 27–35). -/
structure UserRow where
  id : String
  name : String
  email : String
  department : String
  password : Option String
  isActive : Bool
  createdAt : Nat
deriving Repr, DecidableEq

/-- A row of the `verification_codes` table (`part_000`, lines 37–44). -/
structure VerificationCodeRow where
  id : String
  email : String
  code : String
  expiresAt : Nat
  used : Bool
  createdAt : Nat
deriving Repr, DecidableEq

/-- JSON response envelope: HTTP status plus the body fields the handlers of
`part_000` actually set (`message`, `user`, `debugCode`). -/
structure ApiResponse where
  status : Nat
  message : Option String
  user : Option UserRow
  debugCode : Option String
deriving Repr, DecidableEq

/-- JavaScript truthiness of an optional string request field:
`undefined`/missing and the empty string are falsy. -/
def jsTruthy : Option String → Bool
  | none => false
  | some s => s ≠ ""

/-- JavaScript's `email.endsWith('@nextest.com.br')`, modelled as a suffix
test on the character sequence (the suffix is ASCII, so code-unit and
character suffix tests agree). -/
def endsWithDomain (s : String) : Bool :=
  "@nextest.com.br".data.isSuffixOf s.data

/-- The character for a decimal digit value, as `Number.prototype.toString`
renders it (`'0'` has code point 48). -/
def decimalDigitChar (d : Nat) : Char := Char.ofNat (48 + d)

/-- Big-endian decimal character rendering with explicit fuel (any
`fuel ≥ n` yields the full rendering). -/
def decChars : Nat → Nat → List Char
  | 0, _ => []
  | fuel+1, n => if n = 0 then [] else decChars fuel (n / 10) ++ [decimalDigitChar (n % 10)]

/-- Model of JavaScript's `Number.prototype.toString()` on a non-negative
integer: its decimal numeral, with no padding and no sign. -/
def natToDecimal (n : Nat) : String :=
  if n = 0 then "0" else String.mk (decChars n n)

/-- Function `generateVerificationCode` (`part_000`, lines 65–67):
`Math.floor(100000 + Math.random() * 900000).toString()`.
`Math.random()` ranges over `[0,1)`, so `Math.floor(Math.random() * 900000)`
ranges over `0 … 899999`; that integer is the draw `k`.  The resulting number
`100000 + k` is rendered in decimal. -/
def generateVerificationCode (k : Nat) : String :=
  natToDecimal (100000 + k)

/-- The 10-minute expiry window in milliseconds
(`new Date(Date.now() + 10 * 60 * 1000)`, `part_000` line 148). -/
def expiryWindowMs : Nat := 10 * 60 * 1000

/-- Handler for `POST /api/auth/login` (`part_000`, lines 131–172).

Inputs beyond the request body: `dbUsers`/`store` are the current table
contents, `k` the random draw used by `generateVerificationCode`, `newId` the
fresh primary key the database would assign, `now` is `Date.now()`, `mailOk`
tells whether `sendVerificationCode` succeeded, and `nodeEnv` is
`process.env.NODE_ENV` (present in the ambient environment; this handler
never reads it).  Returns the response and the new `verification_codes`
table. -/
def loginHandler (dbUsers : List UserRow) (store : List VerificationCodeRow)
    (email : Option String) (k : Nat) (newId : String) (now : Nat)
    (mailOk : Bool) (nodeEnv : String) : ApiResponse × List VerificationCodeRow :=
  -- if (!email || !email.endsWith('@nextest.com.br')) → 400
  if !(jsTruthy email) ||
      !(match email with
        | none => false
        | some e => endsWithDomain e) then
    ({ status := 400, message := some "Email deve ser do domínio @nextest.com.br",
       user := none, debugCode := none }, store)
  else
    let e := email.getD ""
    -- const [user] = await db.select().from(users).where(eq(users.email, email))
    match dbUsers.find? (fun u => u.email = e) with
    | none =>
      ({ status := 404, message := some "Usuário não encontrado. Crie uma conta primeiro.",
         user := none, debugCode := none }, store)
    | some _ =>
      let code := generateVerificationCode k
      let expiresAt := now + expiryWindowMs
      -- insert: `used` is not supplied, the schema default `false` applies
      let row : VerificationCodeRow :=
        { id := newId, email := e, code := code, expiresAt := expiresAt,
          used := false, createdAt := now }
      let store' := store ++ [row]
      if mailOk then
        ({ status := 200, message := some "Código de verificação enviado",
           user := none, debugCode := none }, store')
      else
        ({ status := 200, message := some "Código gerado (email não enviado)",
           user := none, debugCode := some code }, store')

/-- Predicate of the `where` clause of the verify lookup (`part_000`, lines 179–184):
`and(eq(email), eq(code), eq(used, false), gt(expiresAt, now))`. -/
def vcMatches (e c : String) (now : Nat) (r : VerificationCodeRow) : Bool :=
  r.email = e && r.code = c && r.used = false && decide (now < r.expiresAt)

/-- Lookup `const [verificationCode] = await db.select()...where(...)`: the first row
satisfying the clause (the query has no `orderBy`; list order stands in for
the database's row order). -/
def findValidCode (store : List VerificationCodeRow) (e c : String) (now : Nat) :
    Option VerificationCodeRow :=
  store.find? (vcMatches e c now)

/-- Update `db.update(verificationCodes).set(used true).where(eq(id, X))`
(`part_000`, lines 192–194). -/
def markUsed (store : List VerificationCodeRow) (rowId : String) :
    List VerificationCodeRow :=
  store.map (fun x => if x.id = rowId then { x with used := true } else x)

/-- Handler for `POST /api/auth/verify` (`part_000`, lines 174–205): find a matching row;
if none, 400 with a single fixed message; otherwise mark that row used, look
up the user by email and answer 200 with the (possibly absent) user. -/
def verifyHandler (dbUsers : List UserRow) (store : List VerificationCodeRow)
    (e c : String) (now : Nat) : ApiResponse × List VerificationCodeRow :=
  match findValidCode store e c now with
  | none =>
    ({ status := 400, message := some "Código inválido ou expirado",
       user := none, debugCode := none }, store)
  | some r =>
    let store' := markUsed store r.id
    let user? := dbUsers.find? (fun u => u.email = e)
    ({ status := 200, message := none, user := user?, debugCode := none }, store')

/-- The interleaving `read₁ read₂ write₁ write₂` of two concurrent
`POST /api/auth/verify` requests for the same email+code pair: both requests
run the `select` before either runs the `update`.  Each request commits to
its 200/400 answer at `select` time, exactly as the handler does.  Returns
each request's acceptance and the final store. -/
def concurrentVerifyRRWW (store : List VerificationCodeRow) (e c : String)
    (now : Nat) : Bool × Bool × List VerificationCodeRow :=
  let r1 := findValidCode store e c now
  let r2 := findValidCode store e c now
  let s1 := match r1 with | none => store | some r => markUsed store r.id
  let s2 := match r2 with | none => s1 | some r => markUsed s1 r.id
  (r1.isSome, r2.isSome, s2)

/-- Serial execution of two `POST /api/auth/verify` requests for the same
email+code pair: the second starts only after the first has committed.
Returns the two statuses and the final store. -/
def serialVerify2 (dbUsers : List UserRow) (store : List VerificationCodeRow)
    (e c : String) (now1 now2 : Nat) :
    Nat × Nat × List VerificationCodeRow :=
  let out1 := verifyHandler dbUsers store e c now1
  let out2 := verifyHandler dbUsers out1.2 e c now2
  (out1.1.status, out2.1.status, out2.2)

/-- The fixed mock user of the serverless handler
(`src/api/index.js`, lines 75–83). -/
structure MockUser where
  id : String
  name : String
  email : String
  department : String
deriving Repr, DecidableEq

/-- Response envelope of the mock handler's verify route. -/
structure MockResponse where
  status : Nat
  message : Option String
  user : Option MockUser
deriving Repr, DecidableEq

/-- Branch `/api/auth/verify` of the mock Vercel handler
(`src/api/index.js`, lines 59–84): reject missing/empty email or code, reject
a code whose length is not 6, otherwise answer 200 with a fixed mock user
echoing the email.  No store is consulted. -/
def mockVerifyHandler (email code : Option String) : MockResponse :=
  if !(jsTruthy email) || !(jsTruthy code) then
    { status := 400, message := some "Email e código são obrigatórios", user := none }
  else if (code.getD "").length ≠ 6 then
    { status := 400, message := some "Código deve ter 6 dígitos", user := none }
  else
    { status := 200, message := some "Login realizado (mock)",
      user := some { id := "1", name := "Usuário Teste",
                     email := email.getD "", department := "TI" } }

/-!  ## Decimal rendering lemmas (for the code generator)  -/

lemma decChars_eq_digits : ∀ (fuel n : Nat), n ≤ fuel →
    decChars fuel n = ((Nat.digits 10 n).map decimalDigitChar).reverse := by
  intro fuel
  induction fuel with
  | zero => intro n hn; interval_cases n; simp [decChars]
  | succ fuel ih =>
    intro n hn
    by_cases h0 : n = 0
    · subst h0; simp [decChars]
    · have hd : Nat.digits 10 n = n % 10 :: Nat.digits 10 (n / 10) :=
        Nat.digits_def' (by norm_num) (Nat.pos_of_ne_zero h0)
      have hdiv : n / 10 ≤ fuel := by
        have : n / 10 < n := Nat.div_lt_self (Nat.pos_of_ne_zero h0) (by norm_num)
        omega
      simp [decChars, h0, hd, ih _ hdiv]

lemma natToDecimal_eq {n : Nat} (hn : n ≠ 0) :
    natToDecimal n = String.mk (((Nat.digits 10 n).map decimalDigitChar).reverse) := by
  rw [natToDecimal, if_neg hn, decChars_eq_digits n n le_rfl]

lemma digits_length_six {n : Nat} (h1 : 100000 ≤ n) (h2 : n < 1000000) :
    (Nat.digits 10 n).length = 6 := by
  have hn : n ≠ 0 := by omega
  rw [Nat.digits_len 10 n (by norm_num) hn]
  have h5 : Nat.log 10 n = 5 :=
    Nat.log_eq_of_pow_le_of_lt_pow (le_trans (by norm_num) h1) (lt_of_lt_of_le h2 (by norm_num))
  omega

lemma natToDecimal_six {n : Nat} (h1 : 100000 ≤ n) (h2 : n < 1000000) :
    (natToDecimal n).length = 6 ∧ ∀ c ∈ (natToDecimal n).data, c.isDigit := by
  have hn : n ≠ 0 := by omega
  rw [natToDecimal_eq hn]
  constructor
  · show (((Nat.digits 10 n).map decimalDigitChar).reverse).length = 6
    simp [digits_length_six h1 h2]
  · intro c hc
    have hc' : c ∈ ((Nat.digits 10 n).map decimalDigitChar).reverse := hc
    simp only [List.mem_reverse, List.mem_map] at hc'
    obtain ⟨d, hd, rfl⟩ := hc'
    have hlt : d < 10 := Nat.digits_lt_base (by norm_num) hd
    unfold decimalDigitChar
    interval_cases d <;> decide

/-- C6: every string returned by the code generator is exactly 6 characters
long and consists only of the digits 0–9, for every possible random draw
(the draw `k = Math.floor(Math.random() * 900000)` satisfies `k < 900000`). -/
theorem generateVerificationCode_six_digits (k : Nat) (hk : k < 900000) :
    (generateVerificationCode k).length = 6 ∧
      ∀ c ∈ (generateVerificationCode k).data, c.isDigit := by
  have h := natToDecimal_six (n := 100000 + k) (by omega) (by omega)
  simpa [generateVerificationCode] using h

/-- Witness for C6 at the concrete draw 23456 (code "123456"). -/
theorem generateVerificationCode_six_digits_witness :
    23456 < 900000 ∧ ((generateVerificationCode 23456).length = 6 ∧
      ∀ c ∈ (generateVerificationCode 23456).data, c.isDigit) :=
  ⟨by decide, generateVerificationCode_six_digits 23456 (by decide)⟩

/-!  ## Verification lookup lemmas  -/

lemma vcMatches_iff (e c : String) (now : Nat) (r : VerificationCodeRow) :
    vcMatches e c now r = true ↔
      (r.email = e ∧ r.code = c ∧ r.used = false ∧ now < r.expiresAt) := by
  simp [vcMatches, and_assoc]

/-- C2: verification succeeds (status 200) if and only if the store holds a
row whose email and code match the request exactly, whose `used` flag is
false, and whose expiry is strictly in the future; in particular a request
whose only otherwise-matching rows are expired never succeeds. -/
theorem verify_accepts_iff (du : List UserRow) (s : List VerificationCodeRow)
    (e c : String) (now : Nat) :
    (verifyHandler du s e c now).1.status = 200 ↔
      ∃ r ∈ s, r.email = e ∧ r.code = c ∧ r.used = false ∧ now < r.expiresAt := by
  constructor
  · intro h
    cases hf : findValidCode s e c now with
    | none => simp [verifyHandler, hf] at h
    | some r =>
      simp only [findValidCode] at hf
      exact ⟨r, List.mem_of_find?_eq_some hf,
        (vcMatches_iff e c now r).mp (List.find?_some hf)⟩
  · rintro ⟨r, hr, hm⟩
    have hs : (findValidCode s e c now).isSome := by
      simp only [findValidCode]
      exact List.find?_isSome.mpr ⟨r, hr, (vcMatches_iff e c now r).mpr hm⟩
    obtain ⟨r', hr'⟩ := Option.isSome_iff_exists.mp hs
    simp [verifyHandler, hr']

lemma verify_fail_resp (du : List UserRow) (s : List VerificationCodeRow)
    (e c : String) (now : Nat) (h : (verifyHandler du s e c now).1.status = 400) :
    (verifyHandler du s e c now).1 =
      { status := 400, message := some "Código inválido ou expirado",
        user := none, debugCode := none } := by
  cases hf : findValidCode s e c now with
  | none => simp [verifyHandler, hf]
  | some r => simp [verifyHandler, hf] at h

/-- C8: whenever verification rejects, the response is the same fixed value
regardless of the reason — any two failing attempts (for example one with a
wrong code and one with an expired code) yield identical responses. -/
theorem verify_fail_responses_identical
    (du₁ : List UserRow) (s₁ : List VerificationCodeRow) (e₁ c₁ : String) (now₁ : Nat)
    (du₂ : List UserRow) (s₂ : List VerificationCodeRow) (e₂ c₂ : String) (now₂ : Nat)
    (h₁ : (verifyHandler du₁ s₁ e₁ c₁ now₁).1.status = 400)
    (h₂ : (verifyHandler du₂ s₂ e₂ c₂ now₂).1.status = 400) :
    (verifyHandler du₁ s₁ e₁ c₁ now₁).1 = (verifyHandler du₂ s₂ e₂ c₂ now₂).1 := by
  rw [verify_fail_resp _ _ _ _ _ h₁, verify_fail_resp _ _ _ _ _ h₂]

/-- Compact constructor for concrete `verification_codes` rows, used in
closed instances. -/
def mkVC (i e c : String) (exp : Nat) (u : Bool) : VerificationCodeRow :=
  { id := i, email := e, code := c, expiresAt := exp, used := u, createdAt := 0 }

/-- Witness for C8: a wrong-code rejection and an expired-code rejection,
both failing with identical responses. -/
theorem verify_fail_responses_identical_witness :
    (verifyHandler [] [mkVC "v1" "a@nextest.com.br" "111111" 1000 false]
      "a@nextest.com.br" "222222" 0).1.status = 400 ∧
    (verifyHandler [] [mkVC "v2" "a@nextest.com.br" "222222" 5 false]
      "a@nextest.com.br" "222222" 10).1.status = 400 ∧
    (verifyHandler [] [mkVC "v1" "a@nextest.com.br" "111111" 1000 false]
      "a@nextest.com.br" "222222" 0).1 =
    (verifyHandler [] [mkVC "v2" "a@nextest.com.br" "222222" 5 false]
      "a@nextest.com.br" "222222" 10).1 :=
  ⟨by decide, by decide,
    verify_fail_responses_identical _ _ _ _ _ _ _ _ _ _ (by decide) (by decide)⟩

/-!  ## Replay and concurrency  -/

lemma findValidCode_markUsed_none (s : List VerificationCodeRow) (e c : String)
    (now now' : Nat) (r : VerificationCodeRow)
    (huniq : ∀ a ∈ s, ∀ b ∈ s, a.email = e → a.code = c → b.email = e → b.code = c → a = b)
    (hfind : findValidCode s e c now = some r) :
    findValidCode (markUsed s r.id) e c now' = none := by
  simp only [findValidCode] at hfind ⊢
  have hrmem : r ∈ s := List.mem_of_find?_eq_some hfind
  have hr := (vcMatches_iff e c now r).mp (List.find?_some hfind)
  rw [List.find?_eq_none]
  intro x hx
  simp only [markUsed] at hx
  obtain ⟨y, hy, rfl⟩ := List.mem_map.mp hx
  by_cases hid : y.id = r.id
  · simp [hid, vcMatches]
  · simp only [if_neg hid]
    intro hmatch
    have hm := (vcMatches_iff e c now' y).mp hmatch
    have hyr : y = r := huniq y hy r hrmem hm.1 hm.2.1 hr.1 hr.2.1
    exact hid (by rw [hyr])

lemma verify_replay_core (du du' : List UserRow) (s : List VerificationCodeRow)
    (e c : String) (now now' : Nat)
    (huniq : ∀ a ∈ s, ∀ b ∈ s, a.email = e → a.code = c → b.email = e → b.code = c → a = b)
    (hsucc : (verifyHandler du s e c now).1.status = 200) :
    verifyHandler du' (verifyHandler du s e c now).2 e c now' =
      ({ status := 400, message := some "Código inválido ou expirado",
         user := none, debugCode := none }, (verifyHandler du s e c now).2) := by
  cases hf : findValidCode s e c now with
  | none => simp [verifyHandler, hf] at hsucc
  | some r =>
    have hsnd : (verifyHandler du s e c now).2 = markUsed s r.id := by
      simp [verifyHandler, hf]
    rw [hsnd]
    have hnone := findValidCode_markUsed_none s e c now now' r huniq hf
    simp [verifyHandler, hnone]

/-- C1 counterexample: with two distinct stored rows carrying the same
email+code pair (possible, since the generator can repeat and nothing
deduplicates), a verification succeeds and a later attempt with the very same
pair succeeds again instead of returning 400. -/
theorem verify_replay_succeeds_with_duplicate_rows :
    (verifyHandler []
      [mkVC "v1" "a@nextest.com.br" "123456" 1000 false,
       mkVC "v2" "a@nextest.com.br" "123456" 1000 false]
      "a@nextest.com.br" "123456" 0).1.status = 200 ∧
    (verifyHandler []
      (verifyHandler []
        [mkVC "v1" "a@nextest.com.br" "123456" 1000 false,
         mkVC "v2" "a@nextest.com.br" "123456" 1000 false]
        "a@nextest.com.br" "123456" 0).2
      "a@nextest.com.br" "123456" 0).1.status = 200 := by
  constructor <;> decide

/-- C1 (amended): provided the store holds at most one row with the given
email+code pair, once a verification of that pair succeeds every later
verification attempt with the same pair returns the invalid/expired-code
error (400) and leaves the store unchanged — the success marked the row used
and a used row is never matched again. -/
theorem verify_code_at_most_once (du du' : List UserRow)
    (s : List VerificationCodeRow) (e c : String) (now now' : Nat)
    (huniq : ∀ a ∈ s, ∀ b ∈ s, a.email = e → a.code = c → b.email = e → b.code = c → a = b)
    (hsucc : (verifyHandler du s e c now).1.status = 200) :
    verifyHandler du' (verifyHandler du s e c now).2 e c now' =
      ({ status := 400, message := some "Código inválido ou expirado",
         user := none, debugCode := none }, (verifyHandler du s e c now).2) :=
  verify_replay_core du du' s e c now now' huniq hsucc

/-- Witness for the amended C1: a lone valid row verifies once, then a replay
500 ms later gets the fixed 400 response and the store stays as the success
left it. -/
theorem verify_code_at_most_once_witness :
    (verifyHandler [] [mkVC "v1" "a@nextest.com.br" "123456" 1000 false]
      "a@nextest.com.br" "123456" 0).1.status = 200 ∧
    verifyHandler []
      (verifyHandler [] [mkVC "v1" "a@nextest.com.br" "123456" 1000 false]
        "a@nextest.com.br" "123456" 0).2
      "a@nextest.com.br" "123456" 500 =
      ({ status := 400, message := some "Código inválido ou expirado",
         user := none, debugCode := none },
       (verifyHandler [] [mkVC "v1" "a@nextest.com.br" "123456" 1000 false]
         "a@nextest.com.br" "123456" 0).2) :=
  ⟨by decide,
   verify_code_at_most_once [] [] [mkVC "v1" "a@nextest.com.br" "123456" 1000 false]
     "a@nextest.com.br" "123456" 0 500 (by decide) (by decide)⟩

/-- C3 counterexample: the handler reads (select) and writes (update) in two
separate steps, so in the interleaving where both concurrent requests read
before either writes, both requests for the same still-valid code are
accepted — double-acceptance is possible, refuting atomicity. -/
theorem concurrent_verify_double_accept :
    (concurrentVerifyRRWW [mkVC "v1" "a@nextest.com.br" "123456" 1000 false]
      "a@nextest.com.br" "123456" 0).1 = true ∧
    (concurrentVerifyRRWW [mkVC "v1" "a@nextest.com.br" "123456" 1000 false]
      "a@nextest.com.br" "123456" 0).2.1 = true := by
  constructor <;> decide

/-- C3 (amended): when the two verification attempts for the same still-valid
email+code pair execute serially (the second request starts after the first
completes) and the store holds at most one row with that pair, exactly one
succeeds: the first gets 200 and the second gets 400.  Under the code's
actual non-atomic read-then-write, the read-read-write-write interleaving
accepts both. -/
theorem serial_verify_exactly_one (du : List UserRow)
    (s : List VerificationCodeRow) (e c : String) (now₁ now₂ : Nat)
    (huniq : ∀ a ∈ s, ∀ b ∈ s, a.email = e → a.code = c → b.email = e → b.code = c → a = b)
    (hsucc : (verifyHandler du s e c now₁).1.status = 200) :
    (serialVerify2 du s e c now₁ now₂).1 = 200 ∧
      (serialVerify2 du s e c now₁ now₂).2.1 = 400 := by
  refine ⟨by simpa [serialVerify2] using hsucc, ?_⟩
  have h := verify_replay_core du du s e c now₁ now₂ huniq hsucc
  simp [serialVerify2, h]

/-- Witness for the amended C3: serial re-verification of a lone valid row
yields statuses 200 then 400. -/
theorem serial_verify_exactly_one_witness :
    (serialVerify2 [] [mkVC "v1" "a@nextest.com.br" "123456" 1000 false]
      "a@nextest.com.br" "123456" 0 500).1 = 200 ∧
    (serialVerify2 [] [mkVC "v1" "a@nextest.com.br" "123456" 1000 false]
      "a@nextest.com.br" "123456" 0 500).2.1 = 400 :=
  serial_verify_exactly_one [] [mkVC "v1" "a@nextest.com.br" "123456" 1000 false]
    "a@nextest.com.br" "123456" 0 500 (by decide) (by decide)

/-!  ## Login issuance  -/

/-- Compact constructor for concrete `users` rows, used in closed
instances. -/
def mkUser (i n e d : String) (act : Bool) : UserRow :=
  { id := i, name := n, email := e, department := d, password := none,
    isActive := act, createdAt := 0 }

lemma endsWithDomain_ne_empty {e : String} (h : endsWithDomain e = true) :
    e ≠ "" := by
  intro he
  subst he
  exact absurd h (by decide)

lemma login_success_store (du : List UserRow) (s : List VerificationCodeRow)
    (e : String) (k : Nat) (newId : String) (now : Nat) (mailOk : Bool)
    (env : String) (u : UserRow)
    (hdom : endsWithDomain e = true)
    (hfind : du.find? (fun v => v.email = e) = some u) :
    (loginHandler du s (some e) k newId now mailOk env).1.status = 200 ∧
    (loginHandler du s (some e) k newId now mailOk env).2 =
      s ++ [{ id := newId, email := e, code := generateVerificationCode k,
              expiresAt := now + 10 * 60 * 1000, used := false, createdAt := now }] := by
  have hne : e ≠ "" := endsWithDomain_ne_empty hdom
  cases mailOk <;>
    simp [loginHandler, jsTruthy, hne, hdom, hfind, expiryWindowMs]

/-- C5: for every request whose email is missing or does not end with
`@nextest.com.br`, login issuance answers 400 with the domain-validation
message and leaves the verification-code store unchanged. -/
theorem login_bad_domain_rejected (du : List UserRow)
    (s : List VerificationCodeRow) (email : Option String) (k : Nat)
    (newId : String) (now : Nat) (mailOk : Bool) (env : String)
    (hbad : ∀ e, email = some e → endsWithDomain e = false) :
    loginHandler du s email k newId now mailOk env =
      ({ status := 400, message := some "Email deve ser do domínio @nextest.com.br",
         user := none, debugCode := none }, s) := by
  cases email with
  | none => simp [loginHandler, jsTruthy]
  | some e =>
    have hb := hbad e rfl
    by_cases he : e = ""
    · subst he; simp [loginHandler, jsTruthy]
    · simp [loginHandler, jsTruthy, he, hb]

/-- Witness for C5: a well-formed email of the wrong domain is rejected and
the store (here holding one row) is untouched. -/
theorem login_bad_domain_rejected_witness :
    loginHandler [] [mkVC "v1" "a@nextest.com.br" "123456" 1000 false]
      (some "user@gmail.com") 0 "v2" 0 true "production" =
      ({ status := 400, message := some "Email deve ser do domínio @nextest.com.br",
         user := none, debugCode := none },
       [mkVC "v1" "a@nextest.com.br" "123456" 1000 false]) :=
  login_bad_domain_rejected [] [mkVC "v1" "a@nextest.com.br" "123456" 1000 false]
    (some "user@gmail.com") 0 "v2" 0 true "production"
    (by intro e he; cases he; decide)

/-- C7: on successful issuance for an existing user with a domain-valid
email, the handler answers 200 and appends exactly one new row whose expiry
is the issuance time plus 10 minutes (600000 ms) and whose `used` flag is
false. -/
theorem login_success_persists_one_code (du : List UserRow)
    (s : List VerificationCodeRow) (e : String) (k : Nat) (newId : String)
    (now : Nat) (mailOk : Bool) (env : String) (u : UserRow)
    (hdom : endsWithDomain e = true)
    (hfind : du.find? (fun v => v.email = e) = some u) :
    (loginHandler du s (some e) k newId now mailOk env).1.status = 200 ∧
    (loginHandler du s (some e) k newId now mailOk env).2 =
      s ++ [{ id := newId, email := e, code := generateVerificationCode k,
              expiresAt := now + 10 * 60 * 1000, used := false, createdAt := now }] :=
  login_success_store du s e k newId now mailOk env u hdom hfind

/-- Witness for C7 at a concrete user, empty store and issuance time 5000. -/
theorem login_success_persists_one_code_witness :
    (loginHandler [mkUser "u1" "Ana" "a@nextest.com.br" "TI" true] []
      (some "a@nextest.com.br") 23456 "v1" 5000 true "production").1.status = 200 ∧
    (loginHandler [mkUser "u1" "Ana" "a@nextest.com.br" "TI" true] []
      (some "a@nextest.com.br") 23456 "v1" 5000 true "production").2 =
      [] ++ [{ id := "v1", email := "a@nextest.com.br",
               code := generateVerificationCode 23456,
               expiresAt := 5000 + 10 * 60 * 1000, used := false, createdAt := 5000 }] :=
  login_success_persists_one_code [mkUser "u1" "Ana" "a@nextest.com.br" "TI" true]
    [] "a@nextest.com.br" 23456 "v1" 5000 true "production"
    (mkUser "u1" "Ana" "a@nextest.com.br" "TI" true) (by decide) (by decide)

/-- C10: login issuance never examines `isActive`: for any stored user row
with the requested domain-valid email and `isActive = false`, issuance still
answers 200 and still appends the new verification-code row. -/
theorem login_ignores_isActive (du : List UserRow)
    (s : List VerificationCodeRow) (e : String) (k : Nat) (newId : String)
    (now : Nat) (mailOk : Bool) (env : String) (u : UserRow)
    (hdom : endsWithDomain e = true) (hmem : u ∈ du) (hue : u.email = e)
    (hinactive : u.isActive = false) :
    (loginHandler du s (some e) k newId now mailOk env).1.status = 200 ∧
    (loginHandler du s (some e) k newId now mailOk env).2 =
      s ++ [{ id := newId, email := e, code := generateVerificationCode k,
              expiresAt := now + 10 * 60 * 1000, used := false, createdAt := now }] := by
  have hs : (du.find? (fun v => v.email = e)).isSome :=
    List.find?_isSome.mpr ⟨u, hmem, by simp [hue]⟩
  obtain ⟨u', hu'⟩ := Option.isSome_iff_exists.mp hs
  exact login_success_store du s e k newId now mailOk env u' hdom hu'

/-- Witness for C10: a deactivated user (`isActive = false`) still gets a
code issued. -/
theorem login_ignores_isActive_witness :
    (loginHandler [mkUser "u1" "Ana" "a@nextest.com.br" "TI" false] []
      (some "a@nextest.com.br") 23456 "v1" 5000 false "production").1.status = 200 ∧
    (loginHandler [mkUser "u1" "Ana" "a@nextest.com.br" "TI" false] []
      (some "a@nextest.com.br") 23456 "v1" 5000 false "production").2 =
      [] ++ [{ id := "v1", email := "a@nextest.com.br",
               code := generateVerificationCode 23456,
               expiresAt := 5000 + 10 * 60 * 1000, used := false, createdAt := 5000 }] :=
  login_ignores_isActive [mkUser "u1" "Ana" "a@nextest.com.br" "TI" false]
    [] "a@nextest.com.br" 23456 "v1" 5000 false "production"
    (mkUser "u1" "Ana" "a@nextest.com.br" "TI" false) (by decide) (by decide)
    (by decide) (by decide)

/-- C4: evaluation at the failing input.  With `NODE_ENV = 'production'`, an
existing user and a mail delivery failure, issuance still answers 200 (the
soft-fail half of the claim holds) but the body carries the raw code in
`debugCode` — the handler never consults the environment, so the debug-code
exception is *not* gated behind a non-production flag as the claim requires. -/
theorem login_mail_fail_leaks_code_in_production :
    (loginHandler [mkUser "u1" "Ana" "a@nextest.com.br" "TI" true] []
      (some "a@nextest.com.br") 23456 "v1" 0 false "production").1 =
      { status := 200, message := some "Código gerado (email não enviado)",
        user := none, debugCode := some "123456" } := by
  decide

/-!  ## Mock serverless handler  -/

/-- C9: the mock handler's verify route answers 200 with the fixed mock user
(id "1", the submitted email echoed) for every non-empty email and every
6-character code — the characters need not be digits and no store is ever
consulted (the handler takes none). -/
theorem mock_verify_accepts_any_six_chars (e c : String)
    (he : e ≠ "") (hc : c.length = 6) :
    mockVerifyHandler (some e) (some c) =
      { status := 200, message := some "Login realizado (mock)",
        user := some { id := "1", name := "Usuário Teste", email := e,
                       department := "TI" } } := by
  have hcne : c ≠ "" := by
    intro h
    subst h
    exact absurd hc (by decide)
  simp [mockVerifyHandler, jsTruthy, he, hcne, hc]

/-- Witness for C9: the non-numeric code "ab!? x" of length 6 is accepted
with the mock user echoing the email, without any prior issuance. -/
theorem mock_verify_accepts_any_six_chars_witness :
    ("x@y" : String) ≠ "" ∧ ("ab!? x" : String).length = 6 ∧
    mockVerifyHandler (some "x@y") (some "ab!? x") =
      { status := 200, message := some "Login realizado (mock)",
        user := some { id := "1", name := "Usuário Teste", email := "x@y",
                       department := "TI" } } :=
  ⟨by decide, by decide,
   mock_verify_accepts_any_six_chars "x@y" "ab!? x" (by decide) (by decide)⟩
